import Mathlib

/-!
Verification of the RTS box-selection demo (`src/main.rs`).

The embedding models screen/world coordinates as exact rationals. The host
engine (bevy) and the collision library (parry3d) are external crates, not
code of this repository; the embedding keeps them abstract:

* `Camera.viewportToWorld` models `bevy::Camera::viewport_to_world`, which
  returns `Option<Ray>` (it fails when the camera's view-projection matrix is
  not invertible).
* `ParryLib` packages the two parry3d entry points the program uses:
  `ConvexPolyhedron::from_convex_hull` (which can fail, returning `None`) and
  `parry3d::query::intersection_test` between a positioned cuboid and the
  hull placed at the identity isometry (it returns `Result<bool, _>`).

A Rust `.unwrap()` on a failed `Option`/`Result` panics; the embedding models
a panic as the value `none` of the surrounding computation, so a system that
returns `none` is one that panicked on that frame.
-/

namespace RtsSel

/-- A 2D screen-space point (bevy `Vec2`), with exact rational coordinates. -/
structure Vec2 where
  x : ℚ
  y : ℚ
deriving DecidableEq, Repr

/-- A 3D world-space point or vector (bevy `Vec3`). -/
structure Vec3 where
  x : ℚ
  y : ℚ
  z : ℚ
deriving DecidableEq, Repr

/-- Componentwise vector addition, used for `origin + direction * 1000.0`. -/
def Vec3.add (a b : Vec3) : Vec3 :=
  ⟨a.x + b.x, a.y + b.y, a.z + b.z⟩

/-- Scalar multiplication of a vector. -/
def Vec3.smul (c : ℚ) (v : Vec3) : Vec3 :=
  ⟨c * v.x, c * v.y, c * v.z⟩

/-- A screen rectangle (bevy `Rect`): min and max corners. -/
structure Rect where
  min : Vec2
  max : Vec2
deriving DecidableEq, Repr

/-- Embeds bevy `Rect::from_corners(p0, p1)`: the corners are normalized by
taking the componentwise minimum and maximum, so the argument order is
irrelevant by construction. -/
def Rect.fromCorners (p0 p1 : Vec2) : Rect :=
  ⟨⟨Min.min p0.x p1.x, Min.min p0.y p1.y⟩, ⟨Max.max p0.x p1.x, Max.max p0.y p1.y⟩⟩

/-- Embeds bevy `Rect::size()`: `max - min`, componentwise. -/
def Rect.size (r : Rect) : Vec2 :=
  ⟨r.max.x - r.min.x, r.max.y - r.min.y⟩

/-- A world-space ray (bevy `Ray`): origin plus direction. -/
structure Ray where
  origin : Vec3
  direction : Vec3
deriving DecidableEq, Repr

/-- The literal `1000.0` of `box_select` (`ray.origin + ray.direction * 1000.0`),
the fixed far distance of the selection volume. -/
def FAR_DISTANCE : ℚ := 1000

/-- The far point of a corner ray: `ray.origin + ray.direction * 1000.0`
(src/main.rs line 194). -/
def Ray.farPoint (r : Ray) : Vec3 :=
  Vec3.add r.origin (Vec3.smul FAR_DISTANCE r.direction)

/-- Abstract model of the camera snapshot: `viewport_to_world` is bevy code,
external to this repository; it returns `none` exactly when the camera's
view-projection is not invertible for the queried screen point. -/
structure Camera where
  viewportToWorld : Vec2 → Option Ray

/-- Abstract model of the parry3d entry points used by the program, over an
abstract type `H` of convex-polyhedron colliders.  `fromConvexHull` models
`ConvexPolyhedron::from_convex_hull` (`none` = hull construction failed);
`intersectionTest position halfExtents hull` models
`parry3d::query::intersection_test(&pos, &Cuboid::new(halfExtents), &Isometry3::identity(), &hull)`
where `pos` is the translation-only isometry of the selectable. -/
structure ParryLib (H : Type) where
  fromConvexHull : List Vec3 → Option H
  intersectionTest : Vec3 → Vec3 → H → Except Unit Bool

/-- A selectable unit: its entity id, the translation of its
`GlobalTransform`, and the `Selectable.size` half-extents component. -/
structure Selectable where
  id : Nat
  translation : Vec3
  size : Vec3
deriving DecidableEq, Repr

/-- The `BoxSelect(Rect)` event (src/main.rs lines 22-23). -/
structure BoxSelect where
  rect : Rect
deriving DecidableEq, Repr

/-- Embeds `start_mouse_selection` (src/main.rs lines 142-150): on a
just-pressed primary button the stored `BoxSelectionPosition` becomes the
window's reported cursor position (which is `none` when the cursor is outside
the window); otherwise the stored position is unchanged. -/
def start_mouse_selection (justPressed : Bool) (cursorPosition : Option Vec2)
    (selection : Option Vec2) : Option Vec2 :=
  if justPressed then cursorPosition else selection

/-- Embeds `end_mouse_selection` (src/main.rs lines 152-169): on a
just-released primary button, if a drag start is stored and the cursor is in
the window, the rectangle is built with `Rect::from_corners(cursor, start)`
and a `BoxSelect` event is sent only when both sides of the rectangle are
strictly positive; whenever a drag start was stored it is reset to `none`.
Returns the list of emitted events and the new stored position. -/
def end_mouse_selection (justReleased : Bool) (selection : Option Vec2)
    (cursorPosition : Option Vec2) : List BoxSelect × Option Vec2 :=
  if justReleased then
    match selection with
    | some selectionPosition =>
      match cursorPosition with
      | some cursorPosition =>
        let rect := Rect.fromCorners cursorPosition selectionPosition
        if 0 < (Rect.size rect).x ∧ 0 < (Rect.size rect).y then
          ([BoxSelect.mk rect], none)
        else
          ([], none)
      | none => ([], none)
    | none => ([], selection)
  else
    ([], selection)

/-- Embeds `aabb_collider` (src/main.rs lines 225-227): a parry cuboid is
determined by its half-extents vector. -/
def aabb_collider (size : Vec3) : Vec3 :=
  size

/-- Embeds `vec3_to_isometry` (src/main.rs lines 229-234): a translation-only
isometry (zero rotation) is determined by its translation. -/
def vec3_to_isometry (position : Vec3) : Vec3 :=
  position

/-- Embeds `generate_selection_collider` (src/main.rs lines 215-223): the
near points chained with the far points are passed to
`ConvexPolyhedron::from_convex_hull`; the Rust `.unwrap()` panics when the
hull cannot be built, modelled by propagating `none`. -/
def generate_selection_collider {H : Type} (lib : ParryLib H)
    (near far : List Vec3) : Option H :=
  lib.fromConvexHull (near ++ far)

/-- The four corner rays of `box_select` (src/main.rs lines 185-191): rays
through `rect.min`, `(min.x, max.y)`, `rect.max`, `(max.x, min.y)`, each via
`camera.viewport_to_world(...).unwrap()` — any failed cast panics, modelled
by `none`. -/
def castCorners (cam : Camera) (r : Rect) : Option (List Ray) :=
  match cam.viewportToWorld r.min,
        cam.viewportToWorld ⟨r.min.x, r.max.y⟩,
        cam.viewportToWorld r.max,
        cam.viewportToWorld ⟨r.max.x, r.min.y⟩ with
  | some a, some b, some c, some d => some [a, b, c, d]
  | _, _, _, _ => none

/-- The per-object hit test of `box_select` (src/main.rs lines 198-211):
`if let Ok(true) = intersection_test(...)` — an `Err` or `Ok(false)` result
leaves the object unselected. -/
def hitTest {H : Type} (lib : ParryLib H) (collider : H) (s : Selectable) : Bool :=
  match lib.intersectionTest (vec3_to_isometry s.translation)
      (aabb_collider s.size) collider with
  | Except.ok true => true
  | _ => false

/-- The body of `box_select` for one `BoxSelect` event (src/main.rs lines
178-211): every currently `Selected` entity has the marker removed, the four
corner rays are cast (unwrap), near = origins, far = origins plus direction
times 1000, the selection collider is built (unwrap), and each selectable
passing the intersection test gets the `Selected` marker.  The result is the
new selected-id list (`none` models a panic in one of the unwraps). -/
def box_select_event {H : Type} (lib : ParryLib H) (cam : Camera)
    (selectables : List Selectable) (event : BoxSelect) : Option (List Nat) :=
  match castCorners cam event.rect with
  | none => none
  | some rays =>
    match generate_selection_collider lib (rays.map Ray.origin)
        (rays.map Ray.farPoint) with
    | none => none
    | some collider =>
      some ((selectables.filter (hitTest lib collider)).map Selectable.id)

/-- Embeds the `box_select` system (src/main.rs lines 171-213): the event
loop over the frame's `BoxSelect` events, threading the selected set; with no
events the selected set is untouched. -/
def box_select {H : Type} (lib : ParryLib H) (cam : Camera)
    (selectables : List Selectable) (selected : List Nat) :
    List BoxSelect → Option (List Nat)
  | [] => some selected
  | event :: rest =>
    match box_select_event lib cam selectables event with
    | none => none
    | some newSelected => box_select lib cam selectables newSelected rest

/-! Concrete instantiations used to exercise the systems on closed inputs. -/

/-- A concrete well-behaved camera: the ray through screen point `(x, y)`
starts at world point `(x, y, 0)` and points along `+z`.  Every cast
succeeds. -/
def flatCamera : Camera :=
  ⟨fun p => some ⟨⟨p.x, p.y, 0⟩, ⟨0, 0, 1⟩⟩⟩

/-- A concrete degenerate camera: `viewport_to_world` fails for every screen
point (non-invertible view-projection). -/
def noRayCamera : Camera :=
  ⟨fun _ => none⟩

/-- A concrete executable instance of the parry3d interface, with colliders
represented by their vertex lists: the hull is built whenever at least four
points are given, and the intersection test is an arbitrary computable
predicate on the selectable's position. -/
def simpleLib : ParryLib (List Vec3) where
  fromConvexHull pts := if 4 ≤ pts.length then some pts else none
  intersectionTest position _ _ := Except.ok (decide (position.x ≤ 0))

/-- A concrete selectable sitting at `x = -1` (hit by `simpleLib`'s test). -/
def unitA : Selectable :=
  ⟨1, ⟨-1, 0, 0⟩, ⟨1, 1, 1⟩⟩

/-- A concrete selectable sitting at `x = 5` (missed by `simpleLib`'s test). -/
def unitB : Selectable :=
  ⟨2, ⟨5, 0, 0⟩, ⟨1, 1, 1⟩⟩

/-- A concrete non-degenerate rectangle with corners `(0,0)` and `(10,10)`. -/
def rect01 : Rect :=
  Rect.fromCorners ⟨0, 0⟩ ⟨10, 10⟩

/-- The four corner rays `flatCamera` casts for `rect01`. -/
def rays01 : List Ray :=
  [⟨⟨0, 0, 0⟩, ⟨0, 0, 1⟩⟩, ⟨⟨0, 10, 0⟩, ⟨0, 0, 1⟩⟩,
   ⟨⟨10, 10, 0⟩, ⟨0, 0, 1⟩⟩, ⟨⟨10, 0, 0⟩, ⟨0, 0, 1⟩⟩]

/-- The vertex list of the selection collider `simpleLib` builds for
`rays01`: the four near points followed by the four far points. -/
def hull01 : List Vec3 :=
  rays01.map Ray.origin ++ rays01.map Ray.farPoint

/-! Shared evaluation lemmas. -/

/-- Processing a single event ignores the previous selected set: the loop
body replaces it before the tail (empty) is processed. -/
theorem box_select_one {H : Type} (lib : ParryLib H) (cam : Camera)
    (sels : List Selectable) (selected : List Nat) (e : BoxSelect) :
    box_select lib cam sels selected [e] = box_select_event lib cam sels e := by
  cases h : box_select_event lib cam sels e <;> simp [box_select, h]

/-- Evaluation of the event body when both unwraps succeed: the new selected
set is exactly the filter of the selectables by the intersection test against
the built collider. -/
theorem box_select_event_eval {H : Type} (lib : ParryLib H) (cam : Camera)
    (sels : List Selectable) (e : BoxSelect) (rays : List Ray) (collider : H)
    (hcast : castCorners cam e.rect = some rays)
    (hhull : generate_selection_collider lib (rays.map Ray.origin)
      (rays.map Ray.farPoint) = some collider) :
    box_select_event lib cam sels e =
      some ((sels.filter (hitTest lib collider)).map Selectable.id) := by
  simp [box_select_event, hcast, hhull]

/-- A rectangle built by `Rect.fromCorners` has nonnegative size in both
components. -/
theorem size_fromCorners_nonneg (a b : Vec2) :
    0 ≤ (Rect.size (Rect.fromCorners a b)).x ∧
      0 ≤ (Rect.size (Rect.fromCorners a b)).y := by
  constructor <;>
    simp [Rect.size, Rect.fromCorners, sub_nonneg, min_le_max]

/-- `Rect.fromCorners` is symmetric in its two corners. -/
theorem fromCorners_comm (a b : Vec2) :
    Rect.fromCorners a b = Rect.fromCorners b a := by
  simp [Rect.fromCorners, min_comm, max_comm]

/-! Claim theorems. -/

/-- C1: for every committed non-degenerate rectangle and every set of
selectable objects, once the box-commit query is applied the selected set
equals exactly the ids of the selectables whose bounding cuboid passes the
intersection test against the convex-hull collider built from the
rectangle's four corner rays; the previous selection does not appear in the
result, so it is fully cleared and every intersecting object (and no other)
is inserted. -/
theorem box_commit_replaces_selection {H : Type} (lib : ParryLib H)
    (cam : Camera) (sels : List Selectable) (selected : List Nat) (r : Rect)
    (_hnd : 0 < (Rect.size r).x ∧ 0 < (Rect.size r).y)
    (rays : List Ray) (collider : H)
    (hcast : castCorners cam r = some rays)
    (hhull : generate_selection_collider lib (rays.map Ray.origin)
      (rays.map Ray.farPoint) = some collider) :
    box_select lib cam sels selected [BoxSelect.mk r] =
      some ((sels.filter (hitTest lib collider)).map Selectable.id) := by
  rw [box_select_one]
  exact box_select_event_eval lib cam sels (BoxSelect.mk r) rays collider hcast hhull

/-- Witness for `box_commit_replaces_selection`: a concrete scene where the
previously selected id `9` is dropped and exactly the hit `unitA` (id 1) is
selected. -/
theorem box_commit_replaces_selection_witness :
    (0 < (Rect.size rect01).x ∧ 0 < (Rect.size rect01).y) ∧
    castCorners flatCamera rect01 = some rays01 ∧
    generate_selection_collider simpleLib (rays01.map Ray.origin)
      (rays01.map Ray.farPoint) = some hull01 ∧
    box_select simpleLib flatCamera [unitA, unitB] [9] [BoxSelect.mk rect01] =
      some (([unitA, unitB].filter (hitTest simpleLib hull01)).map Selectable.id) := by
  have hnd : 0 < (Rect.size rect01).x ∧ 0 < (Rect.size rect01).y := by
    norm_num [rect01, Rect.size, Rect.fromCorners]
  have hcast : castCorners flatCamera rect01 = some rays01 := by
    norm_num [castCorners, flatCamera, rect01, rays01, Rect.fromCorners]
  have hhull : generate_selection_collider simpleLib (rays01.map Ray.origin)
      (rays01.map Ray.farPoint) = some hull01 := by
    norm_num [generate_selection_collider, simpleLib, rays01, hull01]
  exact ⟨hnd, hcast, hhull,
    box_commit_replaces_selection simpleLib flatCamera [unitA, unitB] [9]
      rect01 hnd rays01 hull01 hcast hhull⟩

/-- C2 counterexample: with a degenerate camera (every `viewport_to_world`
cast fails) the box-commit panics on the unwrap — modelled by the result
`none` — instead of dropping the frame's selection attempt and keeping the
previous selected set `[5]` (which would be the result `some [5]`). -/
theorem degenerate_camera_panics :
    box_select simpleLib noRayCamera [unitA] [5] [BoxSelect.mk rect01] = none := by
  rfl

/-- C2 amended: the selection pipeline panics (result `none`) exactly when
the corner-ray cast unwrap or the convex-hull unwrap fails; no other step of
the box-commit can fail, and when both unwraps succeed the frame completes
with some selected set. -/
theorem panic_only_on_cast_or_hull_failure {H : Type} (lib : ParryLib H)
    (cam : Camera) (sels : List Selectable) (selected : List Nat) (r : Rect) :
    box_select lib cam sels selected [BoxSelect.mk r] = none ↔
      (castCorners cam r).bind
        (fun rays => generate_selection_collider lib (rays.map Ray.origin)
          (rays.map Ray.farPoint)) = none := by
  rw [box_select_one]
  cases hc : castCorners cam r with
  | none => simp [box_select_event, hc]
  | some rays =>
    cases hh : generate_selection_collider lib (rays.map Ray.origin)
        (rays.map Ray.farPoint) with
    | none => simp [box_select_event, hc, hh]
    | some collider => simp [box_select_event, hc, hh]

/-- C3 counterexample: a release that ends a drag with press and release at
the same point (the degenerate, click case) emits no selection query at all
— not the one `Point` query the claim requires; the program has no `Point`
query event. -/
theorem degenerate_release_emits_nothing :
    end_mouse_selection true (some ⟨3, 4⟩) (some ⟨3, 4⟩) = ([], none) := by
  norm_num [end_mouse_selection, Rect.fromCorners, Rect.size]

/-- C3 amended: a release that ends a drag with the cursor inside the window
emits exactly one query — a `Rect` query — when the rectangle is
non-degenerate, and no query at all when it is degenerate; never two, and
never a `Point` query (no such query exists). -/
theorem release_emits_at_most_one_rect_query (s c : Vec2) :
    (end_mouse_selection true (some s) (some c)).1 =
      (if 0 < (Rect.size (Rect.fromCorners c s)).x ∧
          0 < (Rect.size (Rect.fromCorners c s)).y then
        [BoxSelect.mk (Rect.fromCorners c s)] else []) := by
  by_cases h : 0 < (Rect.size (Rect.fromCorners c s)).x ∧
      0 < (Rect.size (Rect.fromCorners c s)).y <;>
    simp [end_mouse_selection, h]

/-- C4: when the drag rectangle has zero width or zero height, the release
emits no query (and resets the drag start), and running the box-commit
system on the resulting empty event list leaves the selected set
unchanged. -/
theorem degenerate_rect_no_selection {H : Type} (lib : ParryLib H)
    (cam : Camera) (sels : List Selectable) (selected : List Nat) (s c : Vec2)
    (hdeg : (Rect.size (Rect.fromCorners c s)).x = 0 ∨
      (Rect.size (Rect.fromCorners c s)).y = 0) :
    end_mouse_selection true (some s) (some c) = ([], none) ∧
      box_select lib cam sels selected
        (end_mouse_selection true (some s) (some c)).1 = some selected := by
  have hnot : ¬ (0 < (Rect.size (Rect.fromCorners c s)).x ∧
      0 < (Rect.size (Rect.fromCorners c s)).y) := by
    rintro ⟨h1, h2⟩
    rcases hdeg with h | h
    · exact lt_irrefl 0 (h ▸ h1)
    · exact lt_irrefl 0 (h ▸ h2)
  have hev : end_mouse_selection true (some s) (some c) = ([], none) := by
    simp [end_mouse_selection, hnot]
  exact ⟨hev, by rw [hev]; rfl⟩

/-- Witness for `degenerate_rect_no_selection`: a purely vertical drag from
`(1,1)` to `(1,5)` has zero width; the previous selected set `[3]`
survives. -/
theorem degenerate_rect_no_selection_witness :
    ((Rect.size (Rect.fromCorners ⟨1, 5⟩ ⟨1, 1⟩)).x = 0 ∨
      (Rect.size (Rect.fromCorners ⟨1, 5⟩ ⟨1, 1⟩)).y = 0) ∧
    (end_mouse_selection true (some ⟨1, 1⟩) (some ⟨1, 5⟩) = ([], none) ∧
      box_select simpleLib flatCamera [unitA] [3]
        (end_mouse_selection true (some ⟨1, 1⟩) (some ⟨1, 5⟩)).1 = some [3]) := by
  have hdeg : ((Rect.size (Rect.fromCorners ⟨1, 5⟩ (⟨1, 1⟩ : Vec2))).x = 0 ∨
      (Rect.size (Rect.fromCorners ⟨1, 5⟩ (⟨1, 1⟩ : Vec2))).y = 0) := by
    left
    norm_num [Rect.size, Rect.fromCorners]
  exact ⟨hdeg,
    degenerate_rect_no_selection simpleLib flatCamera [unitA] [3] ⟨1, 1⟩ ⟨1, 5⟩ hdeg⟩

/-- C5 counterexample: a click (press and release both at `(10,10)`) over a
scene with no object under the cursor leaves the previously selected id `7`
in place — the claimed `Point`-query semantics would have cleared the
selected set (click on empty space deselects everything). -/
theorem click_leaves_selection_unchanged_cex :
    box_select simpleLib flatCamera [] [7]
        (end_mouse_selection true (some ⟨10, 10⟩) (some ⟨10, 10⟩)).1 = some [7] ∧
      some [7] ≠ some ([] : List Nat) := by
  constructor
  · have hev : end_mouse_selection true (some (⟨10, 10⟩ : Vec2))
        (some (⟨10, 10⟩ : Vec2)) = ([], none) := by
      norm_num [end_mouse_selection, Rect.fromCorners, Rect.size]
    rw [hev]
    rfl
  · simp

/-- C5 amended: a single click (press and release at the same point) emits
no selection query and leaves the selected set unchanged; the program has no
`Point`/nearest-hit query mode at all. -/
theorem click_no_point_query {H : Type} (lib : ParryLib H) (cam : Camera)
    (sels : List Selectable) (selected : List Nat) (p : Vec2) :
    (end_mouse_selection true (some p) (some p)).1 = [] ∧
      box_select lib cam sels selected
        (end_mouse_selection true (some p) (some p)).1 = some selected := by
  have hev : (end_mouse_selection true (some p) (some p)).1 = [] := by
    simp [end_mouse_selection, Rect.fromCorners, Rect.size]
  exact ⟨hev, by rw [hev]; rfl⟩

/-- C6: the box-commit of a rectangle casts one ray through each of the four
corners `(min,min)`, `(min,max)`, `(max,max)`, `(max,min)` in that order;
the near points are the ray origins, the far points are origin plus
direction scaled by `FAR_DISTANCE`, and the selection volume is the convex
hull of those 8 points (the four near points followed by the four far
points). -/
theorem selection_volume_construction {H : Type} (lib : ParryLib H)
    (cam : Camera) (sels : List Selectable) (selected : List Nat) (r : Rect)
    (r0 r1 r2 r3 : Ray)
    (h0 : cam.viewportToWorld r.min = some r0)
    (h1 : cam.viewportToWorld ⟨r.min.x, r.max.y⟩ = some r1)
    (h2 : cam.viewportToWorld r.max = some r2)
    (h3 : cam.viewportToWorld ⟨r.max.x, r.min.y⟩ = some r3) :
    box_select lib cam sels selected [BoxSelect.mk r] =
      (lib.fromConvexHull
          [r0.origin, r1.origin, r2.origin, r3.origin,
           Vec3.add r0.origin (Vec3.smul FAR_DISTANCE r0.direction),
           Vec3.add r1.origin (Vec3.smul FAR_DISTANCE r1.direction),
           Vec3.add r2.origin (Vec3.smul FAR_DISTANCE r2.direction),
           Vec3.add r3.origin (Vec3.smul FAR_DISTANCE r3.direction)]).map
        (fun collider => (sels.filter (hitTest lib collider)).map Selectable.id) := by
  have hc : castCorners cam r = some [r0, r1, r2, r3] := by
    simp [castCorners, h0, h1, h2, h3]
  rw [box_select_one]
  simp only [box_select_event, hc, generate_selection_collider, List.map_cons,
    List.map_nil, List.cons_append, List.nil_append, Ray.farPoint]
  cases lib.fromConvexHull
      [r0.origin, r1.origin, r2.origin, r3.origin,
       Vec3.add r0.origin (Vec3.smul FAR_DISTANCE r0.direction),
       Vec3.add r1.origin (Vec3.smul FAR_DISTANCE r1.direction),
       Vec3.add r2.origin (Vec3.smul FAR_DISTANCE r2.direction),
       Vec3.add r3.origin (Vec3.smul FAR_DISTANCE r3.direction)] <;>
    simp

/-- Witness for `selection_volume_construction`: the flat camera on
`rect01`, checking both the four cast hypotheses and the resulting selected
set. -/
theorem selection_volume_construction_witness :
    flatCamera.viewportToWorld rect01.min =
        some ⟨⟨0, 0, 0⟩, ⟨0, 0, 1⟩⟩ ∧
      flatCamera.viewportToWorld ⟨rect01.min.x, rect01.max.y⟩ =
        some ⟨⟨0, 10, 0⟩, ⟨0, 0, 1⟩⟩ ∧
      flatCamera.viewportToWorld rect01.max =
        some ⟨⟨10, 10, 0⟩, ⟨0, 0, 1⟩⟩ ∧
      flatCamera.viewportToWorld ⟨rect01.max.x, rect01.min.y⟩ =
        some ⟨⟨10, 0, 0⟩, ⟨0, 0, 1⟩⟩ ∧
      box_select simpleLib flatCamera [unitA] [2] [BoxSelect.mk rect01] =
        some [1] := by
  have h0 : flatCamera.viewportToWorld rect01.min =
      some ⟨⟨0, 0, 0⟩, ⟨0, 0, 1⟩⟩ := by
    norm_num [flatCamera, rect01, Rect.fromCorners]
  have h1 : flatCamera.viewportToWorld ⟨rect01.min.x, rect01.max.y⟩ =
      some ⟨⟨0, 10, 0⟩, ⟨0, 0, 1⟩⟩ := by
    norm_num [flatCamera, rect01, Rect.fromCorners]
  have h2 : flatCamera.viewportToWorld rect01.max =
      some ⟨⟨10, 10, 0⟩, ⟨0, 0, 1⟩⟩ := by
    norm_num [flatCamera, rect01, Rect.fromCorners]
  have h3 : flatCamera.viewportToWorld ⟨rect01.max.x, rect01.min.y⟩ =
      some ⟨⟨10, 0, 0⟩, ⟨0, 0, 1⟩⟩ := by
    norm_num [flatCamera, rect01, Rect.fromCorners]
  refine ⟨h0, h1, h2, h3, ?_⟩
  have h := selection_volume_construction simpleLib flatCamera [unitA] [2]
    rect01 ⟨⟨0, 0, 0⟩, ⟨0, 0, 1⟩⟩ ⟨⟨0, 10, 0⟩, ⟨0, 0, 1⟩⟩
    ⟨⟨10, 10, 0⟩, ⟨0, 0, 1⟩⟩ ⟨⟨10, 0, 0⟩, ⟨0, 0, 1⟩⟩ h0 h1 h2 h3
  rw [h]
  norm_num [simpleLib, hitTest, unitA, vec3_to_isometry, aabb_collider,
    List.filter]

/-- C8: swapping which screen point is the press and which is the release
gives the same `end_mouse_selection` output — the rectangle is normalized by
`Rect::from_corners` — and hence the same box-commit result on the emitted
events. -/
theorem corner_order_irrelevant {H : Type} (lib : ParryLib H) (cam : Camera)
    (sels : List Selectable) (selected : List Nat) (a b : Vec2) :
    end_mouse_selection true (some a) (some b) =
        end_mouse_selection true (some b) (some a) ∧
      box_select lib cam sels selected
          (end_mouse_selection true (some a) (some b)).1 =
        box_select lib cam sels selected
          (end_mouse_selection true (some b) (some a)).1 := by
  have h : end_mouse_selection true (some a) (some b) =
      end_mouse_selection true (some b) (some a) := by
    simp [end_mouse_selection, fromCorners_comm b a]
  exact ⟨h, by rw [h]⟩

/-- C9: every emitted `BoxSelect` event carries a normalized, strictly
non-degenerate rectangle: its min corner is componentwise at most its max
corner and both sides of the rectangle are strictly positive. -/
theorem emitted_rect_normalized_nondegenerate (justReleased : Bool)
    (sel cursor : Option Vec2) (e : BoxSelect)
    (he : e ∈ (end_mouse_selection justReleased sel cursor).1) :
    e.rect.min.x ≤ e.rect.max.x ∧ e.rect.min.y ≤ e.rect.max.y ∧
      0 < (Rect.size e.rect).x ∧ 0 < (Rect.size e.rect).y := by
  cases justReleased with
  | false => simp [end_mouse_selection] at he
  | true =>
    cases sel with
    | none => simp [end_mouse_selection] at he
    | some s =>
      cases cursor with
      | none => simp [end_mouse_selection] at he
      | some c =>
        by_cases h : 0 < (Rect.size (Rect.fromCorners c s)).x ∧
            0 < (Rect.size (Rect.fromCorners c s)).y
        · have heq : e = BoxSelect.mk (Rect.fromCorners c s) := by
            simp [end_mouse_selection, h] at he
            exact he
          subst heq
          refine ⟨?_, ?_, h.1, h.2⟩
          · simp [Rect.fromCorners, min_le_max]
          · simp [Rect.fromCorners, min_le_max]
        · simp [end_mouse_selection, h] at he

/-- Witness for `emitted_rect_normalized_nondegenerate` on a concrete
emitted event. -/
theorem emitted_rect_normalized_nondegenerate_witness :
    BoxSelect.mk rect01 ∈
        (end_mouse_selection true (some ⟨0, 0⟩) (some ⟨10, 10⟩)).1 ∧
      ((BoxSelect.mk rect01).rect.min.x ≤ (BoxSelect.mk rect01).rect.max.x ∧
        (BoxSelect.mk rect01).rect.min.y ≤ (BoxSelect.mk rect01).rect.max.y ∧
        0 < (Rect.size (BoxSelect.mk rect01).rect).x ∧
        0 < (Rect.size (BoxSelect.mk rect01).rect).y) := by
  have he : BoxSelect.mk rect01 ∈
      (end_mouse_selection true (some (⟨0, 0⟩ : Vec2))
        (some (⟨10, 10⟩ : Vec2))).1 := by
    norm_num [end_mouse_selection, rect01, Rect.fromCorners, Rect.size]
  exact ⟨he, emitted_rect_normalized_nondegenerate true (some ⟨0, 0⟩)
    (some ⟨10, 10⟩) (BoxSelect.mk rect01) he⟩

/-- C10: a press with the cursor outside the window stores no drag start, so
the following release emits no query; and any release that finds a stored
drag start resets it to `none`, whether or not a query is emitted, so no
stale drag survives a release. -/
theorem no_cursor_no_stale_drag (prior : Option Vec2) (s : Vec2)
    (cursorAtRelease : Option Vec2) :
    start_mouse_selection true none prior = none ∧
      (end_mouse_selection true (start_mouse_selection true none prior)
          cursorAtRelease).1 = [] ∧
      (end_mouse_selection true (some s) cursorAtRelease).2 = none := by
  refine ⟨rfl, by simp [start_mouse_selection, end_mouse_selection], ?_⟩
  cases cursorAtRelease with
  | none => rfl
  | some c =>
    by_cases h : 0 < (Rect.size (Rect.fromCorners c s)).x ∧
        0 < (Rect.size (Rect.fromCorners c s)).y <;>
      simp [end_mouse_selection, h]

end RtsSel
